import Mathlib

/-!
Verification development for the trading toolkit's risk-and-sizing core.

The Python source is embedded shallowly over exact rationals (ℚ): every
floating-point quantity of the source is modelled as a rational number,
pandas NaN cells are modelled as `none : Option ℚ`, and a Python function
that can return an error dictionary is modelled as returning `Res α`
(either `.ok` with the success record or `.err` with the message).
Python `round(x, n)` (banker's rounding) is modelled by `pyRound`.
-/

/-- Result of a Python function that either returns a success dictionary or
a dictionary holding only an "error" key. -/
inductive Res (α : Type) where
  | err (msg : String)
  | ok (val : α)
deriving Repr, DecidableEq

/-- Round a rational to the nearest integer, ties to even
(the behaviour of Python's builtin round). -/
def pyRoundInt (r : ℚ) : ℤ :=
  let n := ⌊r⌋
  let frac := r - n
  if frac < 1/2 then n
  else if 1/2 < frac then n + 1
  else if n % 2 = 0 then n else n + 1

/-- Python's round(x, nd) for nd decimal digits, over ℚ. -/
def pyRound (nd : ℕ) (x : ℚ) : ℚ :=
  (pyRoundInt (x * 10 ^ nd) : ℚ) / 10 ^ nd

/-- ASCII uppercase of one character (the toolkit only compares ASCII tags). -/
def upperChar (c : Char) : Char :=
  if 97 ≤ c.toNat ∧ c.toNat ≤ 122 then Char.ofNat (c.toNat - 32) else c

/-- ASCII lowercase of one character. -/
def lowerChar (c : Char) : Char :=
  if 65 ≤ c.toNat ∧ c.toNat ≤ 90 then Char.ofNat (c.toNat + 32) else c

/-- Python str.upper() for the ASCII strings the toolkit compares. -/
def strUpper (s : String) : String := ⟨s.data.map upperChar⟩

/-- Python str.lower() for the ASCII strings the toolkit compares. -/
def strLower (s : String) : String := ⟨s.data.map lowerChar⟩

/-! ## src/trading/atr_stops.py -/

/-- Success dictionary of calculate_atr_stops. -/
structure AtrStopsDict where
  sl_rate : ℚ
  tp_rate : ℚ
  sl_pct : ℚ
  tp_pct : ℚ
  method : String
deriving Repr, DecidableEq

/-- calculate_atr_stops from src/trading/atr_stops.py: SL/TP rates from ATR.
Source defaults: direction="BUY", sl_multiplier=2.0, tp_multiplier=3.0,
max_sl_pct=15.0, min_sl_pct=1.0 (passed explicitly here). -/
def calculate_atr_stops (price atr : ℚ) (direction : String)
    (sl_multiplier tp_multiplier max_sl_pct min_sl_pct : ℚ) :
    Res AtrStopsDict :=
  if price ≤ 0 ∨ atr ≤ 0 then
    .err "Invalid price or ATR (must be > 0)"
  else
    let sl_distance := atr * sl_multiplier
    let tp_distance := atr * tp_multiplier
    let sl_pct0 := sl_distance / price * 100
    let sl_pct := max min_sl_pct (min sl_pct0 max_sl_pct)
    let sl_distance2 := price * sl_pct / 100
    let tp_pct := tp_distance / price * 100
    let is_buy := strUpper direction = "BUY"
    let sl_rate := if is_buy then price - sl_distance2 else price + sl_distance2
    let tp_rate := if is_buy then price + tp_distance else price - tp_distance
    .ok { sl_rate := pyRound 4 sl_rate
          tp_rate := pyRound 4 tp_rate
          sl_pct := pyRound 2 sl_pct
          tp_pct := pyRound 2 tp_pct
          method := "atr" }

/-- The _CONVICTION table: conviction → (risk_pct, max_concentration_pct). -/
def convictionTable : List (String × (ℚ × ℚ)) :=
  [("strong", (2/100, 8/100)),
   ("moderate", (15/1000, 5/100)),
   ("weak", (1/100, 3/100))]

/-- conviction.lower(), silently replaced by "moderate" when unrecognised. -/
def normalizeConviction (c : String) : String :=
  let cl := strLower c
  if (convictionTable.lookup cl).isSome then cl else "moderate"

/-- (risk_pct, max_concentration) selected by a conviction string. -/
def convictionParams (c : String) : ℚ × ℚ :=
  (convictionTable.lookup (normalizeConviction c)).getD (15/1000, 5/100)

/-- SL distance fraction used for sizing: prefer an explicit positive
sl_distance_pct, otherwise 2×ATR/price clamped to [1%, 15%]. -/
def slFracOf (atr price : ℚ) (sl_distance_pct : Option ℚ) : ℚ :=
  match sl_distance_pct with
  | some s => if 0 < s then s else max (1/100) (min (atr * 2 / price) (15/100))
  | none => max (1/100) (min (atr * 2 / price) (15/100))

/-- risk_budget / sl_frac: the dollar size at which hitting the stop costs
exactly the risk budget. -/
def riskBasedAmount (portfolio_value atr price : ℚ) (conviction : String)
    (sl_distance_pct : Option ℚ) : ℚ :=
  portfolio_value * (convictionParams conviction).1 / slFracOf atr price sl_distance_pct

/-- The amount and binding-constraint tag after the risk/concentration choice,
the cash cap and the high-exposure halving (before the $50 floor and before
rounding). -/
def sizedAmountBinding (portfolio_value cash_available atr price : ℚ)
    (conviction : String) (current_exposure_pct : ℚ)
    (sl_distance_pct : Option ℚ) : ℚ × String :=
  let p := convictionParams conviction
  let risk_budget := portfolio_value * p.1
  let sl_frac := slFracOf atr price sl_distance_pct
  let risk_based_amount := risk_budget / sl_frac
  let concentration_cap := portfolio_value * p.2
  let ab1 : ℚ × String :=
    if risk_based_amount ≤ concentration_cap then (risk_based_amount, "risk")
    else (concentration_cap, "concentration")
  let usable_cash := max 0 (cash_available - 200)
  let ab2 : ℚ × String :=
    if usable_cash < ab1.1 then (usable_cash, "cash") else ab1
  if 80/100 < current_exposure_pct then (ab2.1 / 2, ab2.2 ++ "+high_exposure")
  else ab2

/-- Success dictionary of calculate_position_size.  The fields absent from a
given Python result dictionary are `none`; the reason string of the
below-minimum branch interpolates the amount in the source and is modelled by
a fixed string here. -/
structure SizeDict where
  amount : ℚ
  risk_budget : ℚ
  actual_risk : ℚ
  actual_risk_pct : ℚ
  sl_distance_pct : Option ℚ
  concentration_pct : Option ℚ
  conviction : String
  binding_constraint : String
  method : String
  reason : Option String
deriving Repr, DecidableEq

/-- calculate_position_size from src/trading/atr_stops.py: SL-aware position
sizing with concentration caps, cash buffer, high-exposure halving and a
$50 minimum floor. -/
def calculate_position_size (portfolio_value cash_available atr price : ℚ)
    (conviction : String) (current_exposure_pct : ℚ)
    (sl_distance_pct : Option ℚ) : Res SizeDict :=
  if portfolio_value ≤ 0 ∨ price ≤ 0 then
    .err "Invalid inputs (portfolio_value, price must be > 0)"
  else if atr ≤ 0 ∧ sl_distance_pct = none then
    .err "Need either atr > 0 or sl_distance_pct"
  else
    let conv := normalizeConviction conviction
    let p := convictionParams conviction
    let risk_budget := portfolio_value * p.1
    let sl_frac := slFracOf atr price sl_distance_pct
    let ab := sizedAmountBinding portfolio_value cash_available atr price
      conviction current_exposure_pct sl_distance_pct
    if ab.1 < 50 then
      .ok { amount := 0
            risk_budget := pyRound 2 risk_budget
            actual_risk := 0
            actual_risk_pct := 0
            sl_distance_pct := none
            concentration_pct := none
            conviction := conv
            binding_constraint := "below_minimum"
            method := "sl_sizing"
            reason := some "Calculated amount below $50 minimum" }
    else
      let actual_risk := ab.1 * sl_frac
      .ok { amount := pyRound 2 ab.1
            risk_budget := pyRound 2 risk_budget
            actual_risk := pyRound 2 actual_risk
            actual_risk_pct := pyRound 2 (actual_risk / portfolio_value * 100)
            sl_distance_pct := some (pyRound 2 (sl_frac * 100))
            concentration_pct := some (pyRound 1 (ab.1 / portfolio_value * 100))
            conviction := conv
            binding_constraint := ab.2
            method := "sl_sizing"
            reason := none }

/-! ## src/trading/risk.py and config.py -/

/-- RiskLimits from config.py. -/
structure RiskLimits where
  max_position_pct : ℚ
  max_total_exposure_pct : ℚ
  max_daily_loss_pct : ℚ
  max_single_trade_usd : ℚ
  min_trade_usd : ℚ
  max_open_positions : ℕ
  default_stop_loss_pct : ℚ
  default_take_profit_pct : ℚ
  max_leverage : ℚ
deriving Repr, DecidableEq

/-- The default RiskLimits profile of config.py. -/
def defaultRiskLimits : RiskLimits :=
  { max_position_pct := 10/100
    max_total_exposure_pct := 90/100
    max_daily_loss_pct := 3/100
    max_single_trade_usd := 1000
    min_trade_usd := 10
    max_open_positions := 20
    default_stop_loss_pct := 5
    default_take_profit_pct := 15
    max_leverage := 1 }

/-- AggressiveRiskLimits from config.py (field overrides of the default). -/
def aggressiveRiskLimits : RiskLimits :=
  { defaultRiskLimits with
    max_position_pct := 20/100
    max_total_exposure_pct := 95/100
    max_single_trade_usd := 5000
    min_trade_usd := 50
    max_daily_loss_pct := 5/100
    default_stop_loss_pct := 8
    default_take_profit_pct := 20 }

/-- An open position of the broker portfolio (src/api/models.py Position);
only the fields check_trade could observe are modelled. -/
structure PortfolioPosition where
  instrument_id : ℕ
  is_buy : Bool
  amount : ℚ
  net_profit : ℚ
deriving Repr, DecidableEq

/-- PortfolioSummary from src/api/models.py. -/
structure PortfolioSummary where
  positions : List PortfolioPosition
  total_invested : ℚ
  total_pnl : ℚ
  cash_available : ℚ
deriving Repr, DecidableEq

/-- total_value property: invested + P&L + cash. -/
def PortfolioSummary.total_value (p : PortfolioSummary) : ℚ :=
  p.total_invested + p.total_pnl + p.cash_available

/-- RiskCheckResult from src/trading/risk.py. -/
structure RiskCheckResult where
  passed : Bool
  violations : List String
  warnings : List String
deriving Repr, DecidableEq

/-- Violation message of check 1 (amount below minimum); the source
interpolates the numbers, modelled by fixed distinct strings here. -/
def msgBelowMin : String := "Amount below minimum"

/-- Violation message of check 1 (amount above maximum). -/
def msgAboveMax : String := "Amount exceeds maximum"

/-- Violation message of check 2 (leverage above limit). -/
def msgLeverage : String := "Leverage exceeds maximum"

/-- Warning recorded when the portfolio fetch raises. -/
def msgFetchFail : String := "Could not fetch portfolio for risk check"

/-- Violation message of check 4 (max open positions). -/
def msgMaxPositions : String := "Already at max positions"

/-- Violation message of check 5 (total exposure above the configured cap). -/
def msgExposure : String := "Total exposure would exceed max"

/-- Warning of check 5 (exposure above the hardcoded 80%). -/
def msgHighExposure : String := "High exposure"

/-- Violation message of check 6 (single position concentration). -/
def msgConcentration : String := "Position too large for portfolio"

/-- Violation message of check 7 (daily loss limit). -/
def msgDailyLoss : String := "Daily loss exceeds limit"

/-- Warning for leveraged positions (overnight fees). -/
def msgLeverageFee : String := "Leveraged position: overnight fees will apply"

/-- Warning for short positions (CFD overnight fees). -/
def msgShortFee : String := "Short position: overnight fees will apply (CFD)"

/-- check_trade from src/trading/risk.py.  The two external reads, the live
portfolio fetch (get_portfolio) and the daily realized-pnl aggregate
(TradeLogRepo.get_today_stats), are injected as `Res` arguments: `.err`
models the call raising an exception. -/
def check_trade (_symbol : String) (amount : ℚ) (direction : String)
    (leverage : ℚ) (limits : RiskLimits)
    (portfolioFetch : Res PortfolioSummary) (dailyPnl : Res ℚ) :
    RiskCheckResult :=
  let v1 :=
    (if amount < limits.min_trade_usd then [msgBelowMin] else []) ++
    (if limits.max_single_trade_usd < amount then [msgAboveMax] else []) ++
    (if limits.max_leverage < leverage then [msgLeverage] else [])
  match portfolioFetch with
  | .err _ =>
      { passed := v1.isEmpty, violations := v1, warnings := [msgFetchFail] }
  | .ok portfolio =>
      let v4 := if limits.max_open_positions ≤ portfolio.positions.length
        then [msgMaxPositions] else []
      let total_value := portfolio.total_value
      let new_exposure := (portfolio.total_invested + amount) / total_value
      let v5 := if 0 < total_value ∧ limits.max_total_exposure_pct < new_exposure
        then [msgExposure] else []
      let w5 := if 0 < total_value ∧ 80/100 < new_exposure
        then [msgHighExposure] else []
      let v6 := if 0 < total_value ∧ limits.max_position_pct < amount / total_value
        then [msgConcentration] else []
      let v7 := match dailyPnl with
        | .err _ => []
        | .ok daily_loss =>
            if 0 < total_value ∧ daily_loss < 0 ∧
                limits.max_daily_loss_pct ≤ |daily_loss| / total_value
            then [msgDailyLoss] else []
      let w9 :=
        (if 1 < leverage then [msgLeverageFee] else []) ++
        (if direction = "SELL" then [msgShortFee] else [])
      let violations := v1 ++ v4 ++ v5 ++ v6 ++ v7
      { passed := violations.isEmpty
        violations := violations
        warnings := w5 ++ w9 }

/-! ## src/market/data.py — analyze_market_regime -/

/-- The fields of an analyze_instrument result that analyze_market_regime
reads for an index; the instrument fetch itself is external, so the whole
per-index analysis is injected as a `Res IndexAnalysis`. -/
structure IndexAnalysis where
  price : ℚ
  trend : String
  rsi : ℚ
  sma_20 : ℚ
  sma_50 : ℚ
deriving Repr, DecidableEq

/-- The per-index summary stored in the regime dictionary. -/
structure RegimeIndexView where
  price : ℚ
  trend : String
  rsi : ℚ
  sma_20 : ℚ
  sma_50 : ℚ
  above_sma20 : Bool
  above_sma50 : Bool
deriving Repr, DecidableEq

/-- Build the stored per-index summary from an analysis. -/
def regimeView (a : IndexAnalysis) : RegimeIndexView :=
  { price := a.price
    trend := a.trend
    rsi := a.rsi
    sma_20 := a.sma_20
    sma_50 := a.sma_50
    above_sma20 := decide (a.sma_20 < a.price)
    above_sma50 := decide (a.sma_50 < a.price) }

/-- The vix sub-object of the regime dictionary (always present). -/
structure VixView where
  value : Option ℚ
  regime : String
  guidance : String
  sizing_adjustment : ℚ
deriving Repr, DecidableEq

/-- VIX bucketing chain: (regime, guidance, sizing_adjustment). -/
def vixBucket (v : ℚ) : String × String × ℚ :=
  if v < 13 then
    ("VERY_LOW", "Complacency — low hedging. Good for longs but watch for spikes.", 1)
  else if v < 16 then
    ("LOW", "Calm market. Standard position sizes.", 1)
  else if v < 20 then
    ("NORMAL", "Normal volatility. Standard position sizes.", 1)
  else if v < 25 then
    ("ELEVATED", "Elevated risk. Reduce position sizes by 25%.", 75/100)
  else if v < 30 then
    ("HIGH", "High fear. Reduce position sizes by 50%. Avoid new longs unless oversold bounce.", 1/2)
  else
    ("EXTREME", "Panic/crisis. Minimal new positions. Focus on capital preservation.", 25/100)

/-- The market-regime dictionary. -/
structure MarketRegime where
  errors : List String
  spy : Option RegimeIndexView
  qqq : Option RegimeIndexView
  vix : VixView
  bias : String
  bias_guidance : String
deriving Repr, DecidableEq

/-- analyze_market_regime from src/market/data.py.  The two index analyses
and the external VIX fetch are injected (`.err` / `none` model the fetch
failing). -/
def analyze_market_regime (spy qqq : Res IndexAnalysis) (vix_val : Option ℚ) :
    MarketRegime :=
  let spyView := match spy with | .ok a => some (regimeView a) | .err _ => none
  let qqqView := match qqq with | .ok a => some (regimeView a) | .err _ => none
  let errors :=
    (match spy with | .err e => ["SPY: " ++ e] | .ok _ => []) ++
    (match qqq with | .err e => ["QQQ: " ++ e] | .ok _ => []) ++
    (match vix_val with
     | none => ["VIX: Could not fetch from external sources (defaulting to NORMAL)"]
     | some _ => [])
  let vixView : VixView := match vix_val with
    | some v =>
        let b := vixBucket v
        { value := some (pyRound 2 v), regime := b.1, guidance := b.2.1,
          sizing_adjustment := b.2.2 }
    | none =>
        { value := none, regime := "UNKNOWN",
          guidance := "VIX unavailable — assuming normal volatility.",
          sizing_adjustment := 1 }
  if spyView = none ∧ qqqView = none then
    { errors := errors, spy := spyView, qqq := qqqView, vix := vixView,
      bias := "UNKNOWN",
      bias_guidance := "Market data unavailable — cannot determine regime." }
  else
    let spy_bull := match spyView with | some s => s.trend == "BULLISH" | none => false
    let qqq_bull := match qqqView with | some s => s.trend == "BULLISH" | none => false
    let spy_above_20 := match spyView with | some s => s.above_sma20 | none => false
    let spy_above_50 := match spyView with | some s => s.above_sma50 | none => false
    let vix_ok := match vixView.value with | some x => decide (x < 25) | none => false
    let bull_score :=
      [spy_bull, qqq_bull, spy_above_20, spy_above_50, vix_ok].count true
    if 4 ≤ bull_score then
      { errors := errors, spy := spyView, qqq := qqqView, vix := vixView,
        bias := "RISK_ON",
        bias_guidance := "Favorable for swing longs. Full position sizes." }
    else if 2 ≤ bull_score then
      { errors := errors, spy := spyView, qqq := qqqView, vix := vixView,
        bias := "CAUTIOUS",
        bias_guidance := "Mixed signals. Reduce sizes, focus on strongest setups only." }
    else
      { errors := errors, spy := spyView, qqq := qqqView, vix := vixView,
        bias := "RISK_OFF",
        bias_guidance := "Unfavorable for longs. Defensive positioning, consider sitting out." }

/-! ## src/market/indicators.py -/

/-- One OHLCV bar (only the columns the embedded indicators read). -/
structure Bar where
  high : ℚ
  low : ℚ
  close : ℚ
deriving Repr, DecidableEq

/-- high of bar i (0 outside the series; theorems restrict the index). -/
def highAt (bars : List Bar) (i : ℕ) : ℚ := ((bars[i]?).map Bar.high).getD 0

/-- low of bar i. -/
def lowAt (bars : List Bar) (i : ℕ) : ℚ := ((bars[i]?).map Bar.low).getD 0

/-- close of bar i. -/
def closeAt (bars : List Bar) (i : ℕ) : ℚ := ((bars[i]?).map Bar.close).getD 0

/-- True range at bar i: max(high−low, |high−prev_close|, |low−prev_close|);
the first bar has no previous close, so its shifted terms are NaN and the
row max reduces to high−low. -/
def trueRange (bars : List Bar) (i : ℕ) : ℚ :=
  if i = 0 then highAt bars 0 - lowAt bars 0
  else
    max (highAt bars i - lowAt bars i)
      (max |highAt bars i - closeAt bars (i - 1)| |lowAt bars i - closeAt bars (i - 1)|)

/-- Numerator of the pandas ewm(adjust=True) mean with decay w = 1−alpha. -/
def ewmNum (w : ℚ) (f : ℕ → ℚ) : ℕ → ℚ
  | 0 => f 0
  | i + 1 => w * ewmNum w f i + f (i + 1)

/-- Denominator of the pandas ewm(adjust=True) mean. -/
def ewmDen (w : ℚ) : ℕ → ℚ
  | 0 => 1
  | i + 1 => w * ewmDen w i + 1

/-- ATR at bar i: tr.ewm(alpha=1/period, min_periods=period).mean()
(pandas default adjust=True); NaN (`none`) until `period` observations
have been seen. -/
def atrAt (bars : List Bar) (period : ℕ) (i : ℕ) : Option ℚ :=
  if period ≤ i + 1 then
    some (ewmNum (1 - 1 / (period : ℚ)) (trueRange bars) i /
      ewmDen (1 - 1 / (period : ℚ)) i)
  else none

/-- Bar midpoint (high+low)/2. -/
def hl2At (bars : List Bar) (i : ℕ) : ℚ := (highAt bars i + lowAt bars i) / 2

/-- Basic (unlocked) SuperTrend upper band hl2 + mult·ATR. -/
def ubBasic (bars : List Bar) (n : ℕ) (mult : ℚ) (i : ℕ) : Option ℚ :=
  (atrAt bars n i).map (fun a => hl2At bars i + mult * a)

/-- Basic (unlocked) SuperTrend lower band hl2 − mult·ATR. -/
def lbBasic (bars : List Bar) (n : ℕ) (mult : ℚ) (i : ℕ) : Option ℚ :=
  (atrAt bars n i).map (fun a => hl2At bars i - mult * a)

/-- State of the supertrend forward scan after bar i:
(locked upper band, locked lower band, trend).  Mirrors the loop of
`supertrend` in src/market/indicators.py: while the bands are NaN the trend
is carried forward; afterwards the upper band may only decrease unless the
prior close broke above it, the lower band may only increase unless the
prior close broke below it, and the trend flips only when the close crosses
the active band. -/
def stState (bars : List Bar) (n : ℕ) (mult : ℚ) : ℕ → Option ℚ × Option ℚ × Int
  | 0 => (ubBasic bars n mult 0, lbBasic bars n mult 0, 1)
  | i + 1 =>
    let prev := stState bars n mult i
    match atrAt bars n (i + 1) with
    | none => (ubBasic bars n mult (i + 1), lbBasic bars n mult (i + 1), prev.2.2)
    | some a =>
      let bu := hl2At bars (i + 1) + mult * a
      let bl := hl2At bars (i + 1) - mult * a
      let pu := prev.1.getD bu
      let pl := prev.2.1.getD bl
      let u := if bu < pu ∨ pu < closeAt bars i then bu else pu
      let l := if pl < bl ∨ closeAt bars i < pl then bl else pl
      let t : Int :=
        if prev.2.2 = -1 then (if u < closeAt bars (i + 1) then 1 else -1)
        else (if closeAt bars (i + 1) < l then -1 else 1)
      (some u, some l, t)

/-- Locked SuperTrend upper band at bar i (ub_arr[i]). -/
def stUb (bars : List Bar) (n : ℕ) (mult : ℚ) (i : ℕ) : Option ℚ :=
  (stState bars n mult i).1

/-- Locked SuperTrend lower band at bar i (lb_arr[i]). -/
def stLb (bars : List Bar) (n : ℕ) (mult : ℚ) (i : ℕ) : Option ℚ :=
  (stState bars n mult i).2.1

/-- SuperTrend direction at bar i (trend_arr[i]): +1 bullish, −1 bearish. -/
def stTrend (bars : List Bar) (n : ℕ) (mult : ℚ) (i : ℕ) : Int :=
  (stState bars n mult i).2.2

/-- SuperTrend output line: lower band when bullish, upper band when bearish. -/
def stLine (bars : List Bar) (n : ℕ) (mult : ℚ) (i : ℕ) : Option ℚ :=
  if stTrend bars n mult i = 1 then stLb bars n mult i else stUb bars n mult i

/-- Maximum of a list of rationals (None when empty), as Python max(). -/
def maxQ? : List ℚ → Option ℚ
  | [] => none
  | x :: xs => some (xs.foldl max x)

/-- Minimum of a list of rationals (None when empty), as Python min(). -/
def minQ? : List ℚ → Option ℚ
  | [] => none
  | x :: xs => some (xs.foldl min x)

/-- pandas rolling(window, center=True).max() with the default
min_periods=window: the window for output position i is the slice
[i+1+offset−w, i+1+offset) clipped to the series, offset=(w−1)/2, and the
cell is NaN unless the clipped slice holds w observations. -/
def rollMaxCentered (w : ℕ) (xs : List ℚ) : List (Option ℚ) :=
  (List.range xs.length).map (fun i =>
    let e := min (i + 1 + (w - 1) / 2) xs.length
    let s := i + 1 + (w - 1) / 2 - w
    if w ≤ e - s then maxQ? ((xs.drop s).take (e - s)) else none)

/-- pandas rolling(window, center=True).min() with min_periods=window. -/
def rollMinCentered (w : ℕ) (xs : List ℚ) : List (Option ℚ) :=
  (List.range xs.length).map (fun i =>
    let e := min (i + 1 + (w - 1) / 2) xs.length
    let s := i + 1 + (w - 1) / 2 - w
    if w ≤ e - s then minQ? ((xs.drop s).take (e - s)) else none)

/-- Insert into an ascending list (helper for the Python sorted()). -/
def insertAsc (x : ℚ) : List ℚ → List ℚ
  | [] => [x]
  | y :: ys => if x ≤ y then x :: y :: ys else y :: insertAsc x ys

/-- Python sorted() on rationals. -/
def sortAsc : List ℚ → List ℚ
  | [] => []
  | x :: xs => insertAsc x (sortAsc xs)

/-- Collapse equal adjacent entries of a sorted list (models set()). -/
def dedupAdj : List ℚ → List ℚ
  | [] => []
  | [x] => [x]
  | x :: y :: ys => if x = y then dedupAdj (y :: ys) else x :: dedupAdj (y :: ys)

/-- sorted(set(xs)): ascending distinct values. -/
def sortedUnique (xs : List ℚ) : List ℚ := dedupAdj (sortAsc xs)

/-- Python xs[-k:]: the last k elements. -/
def lastN (k : ℕ) (xs : List ℚ) : List ℚ := xs.drop (xs.length - k)

/-- The scan of _dedupe_levels: keep a level only when its distance from the
last kept level exceeds tolerance, relative to the last kept level. -/
def dedupeGo (tol : ℚ) (lastKept : ℚ) : List ℚ → List ℚ
  | [] => []
  | l :: ls =>
    if tol < |l - lastKept| / lastKept then l :: dedupeGo tol l ls
    else dedupeGo tol lastKept ls

/-- _dedupe_levels from src/market/indicators.py: sort ascending, always keep
the first (lowest) level, then keep each later level only when it is more
than tolerance away (relative) from the last kept one. -/
def dedupe_levels (tol : ℚ) (levels : List ℚ) : List ℚ :=
  match sortAsc levels with
  | [] => []
  | x :: xs => x :: dedupeGo tol x xs

/-- Resistance levels before rounding: _dedupe_levels applied to the last 5
distinct centered rolling maxima of the highs. -/
def resistanceLevelsRaw (bars : List Bar) (window : ℕ) : List ℚ :=
  dedupe_levels (2/100)
    (lastN 5 (sortedUnique ((rollMaxCentered window (bars.map Bar.high)).filterMap id)))

/-- Support levels before rounding: _dedupe_levels applied to the first 5
distinct centered rolling minima of the lows. -/
def supportLevelsRaw (bars : List Bar) (window : ℕ) : List ℚ :=
  dedupe_levels (2/100)
    ((sortedUnique ((rollMinCentered window (bars.map Bar.low)).filterMap id)).take 5)

/-- max of the supports strictly below the current close (None when none). -/
def maxBelow (c : ℚ) (xs : List ℚ) : Option ℚ :=
  maxQ? (xs.filter (fun s => decide (s < c)))

/-- min of the resistances strictly above the current close. -/
def minAbove (c : ℚ) (xs : List ℚ) : Option ℚ :=
  minQ? (xs.filter (fun r => decide (c < r)))

/-- Result dictionary of support_resistance. -/
structure SRLevels where
  support_levels : List ℚ
  resistance_levels : List ℚ
  nearest_support : Option ℚ
  nearest_resistance : Option ℚ
deriving Repr, DecidableEq

/-- support_resistance from src/market/indicators.py.  On an empty series the
source evaluates df["close"].iloc[-1], which raises IndexError; that uncaught
exception is modelled as `none`.  The source guards the nearest levels with
Python truthiness (`if nearest_support`), so a nearest level equal to 0 is
also reported as None. -/
def support_resistance (bars : List Bar) (window : ℕ) : Option SRLevels :=
  if bars.isEmpty then none
  else
    let current := closeAt bars (bars.length - 1)
    let resistance_levels := resistanceLevelsRaw bars window
    let support_levels := supportLevelsRaw bars window
    let ns := maxBelow current support_levels
    let nr := minAbove current resistance_levels
    some
      { support_levels := support_levels.map (pyRound 4)
        resistance_levels := resistance_levels.map (pyRound 4)
        nearest_support := match ns with
          | some s => if s = 0 then none else some (pyRound 4 s)
          | none => none
        nearest_resistance := match nr with
          | some r => if r = 0 then none else some (pyRound 4 r)
          | none => none }

/-! ## Concrete series used by the theorems -/

/-- A strictly increasing OHLC series (high, low and close all strictly
increasing bar over bar, with low ≤ close ≤ high on every bar) followed by a
single one-bar pullback of 5 points. -/
def pullbackBars : List Bar :=
  [⟨101, 99, 100⟩, ⟨102, 100, 101⟩, ⟨103, 101, 102⟩,
   ⟨104, 102, 103⟩, ⟨105, 103, 104⟩, ⟨100, 98, 99⟩]

/-- A four-bar series whose centered rolling maxima contain the two distinct
resistance levels 100 and 101, which lie within 2% of each other. -/
def srBars : List Bar :=
  [⟨100, 10, 50⟩, ⟨100, 11, 50⟩, ⟨101, 12, 51⟩, ⟨101, 13, 103/2⟩]

/-- The result of calculate_position_size(10000, 250, 5, 100, "strong"):
the $50 of usable cash binds. -/
def c4CashDict : SizeDict :=
  { amount := 50, risk_budget := 200, actual_risk := 5, actual_risk_pct := 1/20,
    sl_distance_pct := some 10, concentration_pct := some (1/2),
    conviction := "strong", binding_constraint := "cash", method := "sl_sizing",
    reason := none }

/-- The result of calculate_position_size(10000, 210, 5, 100, "strong"):
the $10 of usable cash pushes the amount below the $50 floor. -/
def c4MinDict : SizeDict :=
  { amount := 0, risk_budget := 200, actual_risk := 0, actual_risk_pct := 0,
    sl_distance_pct := none, concentration_pct := none, conviction := "strong",
    binding_constraint := "below_minimum", method := "sl_sizing",
    reason := some "Calculated amount below $50 minimum" }

/-- The result of calculate_position_size(10000, 5000, 5, 100, "moderate"):
the 5% concentration cap binds. -/
def c10ConcDict : SizeDict :=
  { amount := 500, risk_budget := 150, actual_risk := 50, actual_risk_pct := 1/2,
    sl_distance_pct := some 10, concentration_pct := some 5,
    conviction := "moderate", binding_constraint := "concentration",
    method := "sl_sizing", reason := none }

/-- A broker portfolio snapshot with total value 10000 and 8500 invested. -/
def c7Portfolio : PortfolioSummary :=
  { positions := [], total_invested := 8500, total_pnl := 0, cash_available := 1500 }

/-- The five booleans of the claimed bull score, stated directly from the
inputs: SPY trend bullish, QQQ trend bullish, SPY above its 20-bar SMA, SPY
above its 50-bar SMA, and volatility proxy available AND (as stored, to two
decimals) below the elevated threshold 25; an unavailable proxy counts false. -/
def bullScoreSpec (spy qqq : Res IndexAnalysis) (vix_val : Option ℚ) : ℕ :=
  [(match spy with | .ok a => a.trend == "BULLISH" | .err _ => false),
   (match qqq with | .ok a => a.trend == "BULLISH" | .err _ => false),
   (match spy with | .ok a => decide (a.sma_20 < a.price) | .err _ => false),
   (match spy with | .ok a => decide (a.sma_50 < a.price) | .err _ => false),
   (match vix_val with | some v => decide (pyRound 2 v < 25) | none => false)].count true

/-- A bullish SPY analysis: price 500 above both moving averages. -/
def c5Spy : IndexAnalysis :=
  { price := 500, trend := "BULLISH", rsi := 60, sma_20 := 490, sma_50 := 480 }

/-! ## Theorems -/

/-- The conviction table entry for "moderate". -/
theorem convictionParams_moderate : convictionParams "moderate" = (15/1000, 5/100) := by
  have hm : normalizeConviction "moderate" = "moderate" := by decide
  have h1 : ("moderate" == "strong") = false := by decide
  have h2 : ("moderate" == "moderate") = true := by decide
  simp [convictionParams, hm, convictionTable, List.lookup, h1, h2]

/-- The conviction table entry for "strong". -/
theorem convictionParams_strong : convictionParams "strong" = (2/100, 8/100) := by
  have hm : normalizeConviction "strong" = "strong" := by decide
  have h1 : ("strong" == "strong") = true := by decide
  simp [convictionParams, hm, convictionTable, List.lookup, h1]

/-- The conviction table entry for "weak". -/
theorem convictionParams_weak : convictionParams "weak" = (1/100, 3/100) := by
  have hm : normalizeConviction "weak" = "weak" := by decide
  have h1 : ("weak" == "strong") = false := by decide
  have h2 : ("weak" == "moderate") = false := by decide
  have h3 : ("weak" == "weak") = true := by decide
  simp [convictionParams, hm, convictionTable, List.lookup, h1, h2, h3]

/-- Claim C2: calculate_atr_stops(100, 5, "BUY") yields sl_rate=90, tp_rate=115,
sl_pct=10, tp_pct=15; calculate_atr_stops(100, 20, "BUY", max_sl_pct=15) clamps
the stop-loss percentage to 15 (sl_rate=85) while the take-profit distance
atr·tp_multiplier stays unclamped (tp_pct=60, tp_rate=160). -/
theorem C2_atr_stops_values :
    calculate_atr_stops 100 5 "BUY" 2 3 15 1 =
      .ok { sl_rate := 90, tp_rate := 115, sl_pct := 10, tp_pct := 15, method := "atr" } ∧
    calculate_atr_stops 100 20 "BUY" 2 3 15 1 =
      .ok { sl_rate := 85, tp_rate := 160, sl_pct := 15, tp_pct := 60, method := "atr" } := by
  have hb : strUpper "BUY" = "BUY" := by decide
  constructor <;>
    norm_num [calculate_atr_stops, hb, pyRound, pyRoundInt]

/-- Claim C3 (code bug): the claim (backed by the spec and by the tests
test_sl_distance_pct_zero_returns_error and
test_sl_distance_pct_negative_returns_error) requires an error result when
sl_distance_pct is provided with a value ≤ 0; the code instead silently falls
back to the ATR-derived stop distance and returns a sized position.  At the
tests' own input the result is a success dictionary, not an error. -/
theorem C3_sl_zero_not_rejected :
    calculate_position_size 10000 5000 5 100 "moderate" 0 (some 0) =
      .ok { amount := 500, risk_budget := 150, actual_risk := 50,
            actual_risk_pct := 1/2, sl_distance_pct := some 10,
            concentration_pct := some 5, conviction := "moderate",
            binding_constraint := "concentration", method := "sl_sizing",
            reason := none } := by
  have hm : normalizeConviction "moderate" = "moderate" := by decide
  norm_num [calculate_position_size, sizedAmountBinding, slFracOf,
    convictionParams_moderate, hm, pyRound, pyRoundInt]

/-- Claim C9 (code bug): the spec's failure policy says no indicator raises on
degenerate input, but support_resistance evaluates df["close"].iloc[-1] before
any guard, which raises IndexError on an empty series (modelled as `none`). -/
theorem C9_support_resistance_empty_raises :
    support_resistance ([] : List Bar) 20 = none := by
  decide

/-- Claim C1, counterexample: with period 2 and multiplier 1/100 (both positive,
as the claim permits), the first five bars of pullbackBars are strictly
increasing in high, low and close, the sixth bar is a single one-bar pullback,
and the supertrend direction flips from bullish (+1) on bar 4 to bearish (−1)
on the pullback bar — contradicting the claim that a single one-bar pullback
cannot flip the direction. -/
theorem C1_supertrend_counterexample :
    (highAt pullbackBars 0 < highAt pullbackBars 1 ∧
     highAt pullbackBars 1 < highAt pullbackBars 2 ∧
     highAt pullbackBars 2 < highAt pullbackBars 3 ∧
     highAt pullbackBars 3 < highAt pullbackBars 4) ∧
    (lowAt pullbackBars 0 < lowAt pullbackBars 1 ∧
     lowAt pullbackBars 1 < lowAt pullbackBars 2 ∧
     lowAt pullbackBars 2 < lowAt pullbackBars 3 ∧
     lowAt pullbackBars 3 < lowAt pullbackBars 4) ∧
    (closeAt pullbackBars 0 < closeAt pullbackBars 1 ∧
     closeAt pullbackBars 1 < closeAt pullbackBars 2 ∧
     closeAt pullbackBars 2 < closeAt pullbackBars 3 ∧
     closeAt pullbackBars 3 < closeAt pullbackBars 4) ∧
    (highAt pullbackBars 5 < highAt pullbackBars 4 ∧
     lowAt pullbackBars 5 < lowAt pullbackBars 4 ∧
     closeAt pullbackBars 5 < closeAt pullbackBars 4) ∧
    stTrend pullbackBars 2 (1/100) 4 = 1 ∧
    stTrend pullbackBars 2 (1/100) 5 = -1 := by
  refine ⟨?_, ?_, ?_, ?_, ?_, ?_⟩ <;>
    norm_num [stTrend, stState, atrAt, ubBasic, lbBasic, hl2At, highAt, lowAt,
      closeAt, trueRange, ewmNum, ewmDen, pullbackBars]

/-- Claim C1, amended: for every positive period and multiplier, past the ATR
warmup the locked lower band never decreases from one bar to the next as long
as the prior bar's close has not broken strictly below it (in a monotonically
increasing series the close stays above the band while the trend is bullish,
so the active lower band is non-decreasing there); and a one-bar pullback
flips the direction from bullish (+1) to bearish (−1) only when its close
falls strictly below the locked lower band — a pullback closing at or above
the band never flips the direction. -/
theorem C1_supertrend_band_locking (bars : List Bar) (n : ℕ) (mult : ℚ)
    (i : ℕ) (pl l : ℚ) (hpl : stLb bars n mult i = some pl)
    (hl : stLb bars n mult (i + 1) = some l) :
    (pl ≤ closeAt bars i → pl ≤ l) ∧
    (stTrend bars n mult i = 1 → l ≤ closeAt bars (i + 1) →
      stTrend bars n mult (i + 1) = 1) := by
  unfold stLb at hpl hl
  unfold stTrend
  rcases h : atrAt bars n (i + 1) with _ | a
  · exfalso
    simp only [stState, h, lbBasic, Option.map_none'] at hl
    exact Option.noConfusion hl
  · simp only [stState, h, hpl, Option.getD_some] at hl ⊢
    have hll : (if pl < hl2At bars (i + 1) - mult * a ∨ closeAt bars i < pl
        then hl2At bars (i + 1) - mult * a else pl) = l := Option.some.inj hl
    constructor
    · intro hc
      rcases lt_or_le pl (hl2At bars (i + 1) - mult * a) with h1 | h1
      · rw [if_pos (Or.inl h1)] at hll
        exact hll ▸ le_of_lt h1
      · rw [if_neg (by push_neg; exact ⟨h1, hc⟩)] at hll
        exact le_of_eq hll
    · intro ht hcl
      have ht1 : (stState bars n mult i).2.2 = 1 := ht
      rw [ht1, hll]
      rw [if_neg (by decide : ¬ (1 : Int) = -1), if_neg (not_lt.mpr hcl)]

/-- Claim C1 witness: on the uptrend prefix of pullbackBars, bar 2 closes above
the locked lower band 101.98, so the theorem yields that the band rises to
102.98 at bar 3 and the bullish direction persists. -/
theorem C1_supertrend_band_locking_witness :
    (5099:ℚ)/50 ≤ 5149/50 ∧ stTrend pullbackBars 2 (1/100) 3 = 1 := by
  have hpl : stLb pullbackBars 2 (1/100) 2 = some (5099/50) := by
    norm_num [stLb, stState, atrAt, ubBasic, lbBasic, hl2At, highAt, lowAt,
      closeAt, trueRange, ewmNum, ewmDen, pullbackBars]
  have hl : stLb pullbackBars 2 (1/100) 3 = some (5149/50) := by
    norm_num [stLb, stState, atrAt, ubBasic, lbBasic, hl2At, highAt, lowAt,
      closeAt, trueRange, ewmNum, ewmDen, pullbackBars]
  have ht : stTrend pullbackBars 2 (1/100) 2 = 1 := by
    norm_num [stTrend, stState, atrAt, ubBasic, lbBasic, hl2At, highAt, lowAt,
      closeAt, trueRange, ewmNum, ewmDen, pullbackBars]
  have h := C1_supertrend_band_locking pullbackBars 2 (1/100) 2 (5099/50) (5149/50) hpl hl
  exact ⟨h.1 (by norm_num [closeAt, pullbackBars]),
         h.2 ht (by norm_num [closeAt, pullbackBars])⟩

/-- Rounding to the nearest integer never crosses an integer bound from below. -/
theorem pyRoundInt_le (r : ℚ) (m : ℤ) (h : r ≤ m) : pyRoundInt r ≤ m := by
  have hf : ⌊r⌋ ≤ m := by
    have h2 : ⌊r⌋ ≤ ⌊(m : ℚ)⌋ := Int.floor_le_floor h
    simpa using h2
  have hstep : ¬ (r - ⌊r⌋ < 1/2) → ⌊r⌋ + 1 ≤ m := by
    intro h1
    have h2 : (1:ℚ)/2 ≤ r - ⌊r⌋ := not_lt.mp h1
    have h3 : ((⌊r⌋ : ℤ) : ℚ) < (m : ℚ) := by linarith
    have h4 : ⌊r⌋ < m := by exact_mod_cast h3
    omega
  unfold pyRoundInt
  dsimp only
  split_ifs with h1 h2 h3
  · exact hf
  · exact hstep h1
  · exact hf
  · exact hstep h1

/-- pyRound never exceeds an integer upper bound of its argument. -/
theorem pyRound_le_int (nd : ℕ) (x : ℚ) (m : ℤ) (h : x ≤ m) : pyRound nd x ≤ m := by
  unfold pyRound
  rw [div_le_iff₀ (by positivity : (0:ℚ) < 10 ^ nd)]
  have h1 : x * 10 ^ nd ≤ ((m * 10 ^ nd : ℤ) : ℚ) := by
    push_cast
    have h2 : (0:ℚ) ≤ 10 ^ nd := by positivity
    nlinarith
  have h3 := pyRoundInt_le _ _ h1
  calc (pyRoundInt (x * 10 ^ nd) : ℚ) ≤ ((m * 10 ^ nd : ℤ) : ℚ) := by exact_mod_cast h3
    _ = (m : ℚ) * 10 ^ nd := by push_cast; ring

/-- The sizing SL fraction is always strictly positive. -/
theorem slFracOf_pos (atr price : ℚ) (sl : Option ℚ) : 0 < slFracOf atr price sl := by
  have hmax : (0:ℚ) < max (1/100) (min (atr * 2 / price) (15/100)) :=
    lt_of_lt_of_le (by norm_num) (le_max_left _ _)
  unfold slFracOf
  rcases sl with _ | s
  · exact hmax
  · show 0 < if 0 < s then s else max (1/100) (min (atr * 2 / price) (15/100))
    by_cases hs : 0 < s
    · rw [if_pos hs]
      exact hs
    · rw [if_neg hs]
      exact hmax

/-- Every conviction string selects one of the three table entries. -/
theorem convictionParams_cases (c : String) :
    convictionParams c = (2/100, 8/100) ∨ convictionParams c = (15/1000, 5/100) ∨
    convictionParams c = (1/100, 3/100) := by
  unfold convictionParams convictionTable
  cases h1 : (normalizeConviction c == "strong") <;>
    cases h2 : (normalizeConviction c == "moderate") <;>
      cases h3 : (normalizeConviction c == "weak") <;>
        simp [List.lookup, h1, h2, h3]

/-- Both conviction parameters are strictly positive. -/
theorem convictionParams_pos (c : String) :
    0 < (convictionParams c).1 ∧ 0 < (convictionParams c).2 := by
  rcases convictionParams_cases c with h | h | h <;> rw [h] <;> constructor <;> norm_num

/-- The sized amount never exceeds the usable cash (cash minus the $200
buffer, floored at 0). -/
theorem sizedAmountBinding_le_usable (pv cash atr price exp : ℚ) (conv : String)
    (sl : Option ℚ) :
    (sizedAmountBinding pv cash atr price conv exp sl).1 ≤ max 0 (cash - 200) := by
  have hu : (0:ℚ) ≤ max 0 (cash - 200) := le_max_left _ _
  unfold sizedAmountBinding
  dsimp only
  split_ifs <;> (try dsimp only at *) <;> linarith

/-- The sized amount never exceeds the risk-based amount. -/
theorem sizedAmountBinding_le_riskBased (pv cash atr price exp : ℚ) (conv : String)
    (sl : Option ℚ) (hpv : 0 ≤ pv) :
    (sizedAmountBinding pv cash atr price conv exp sl).1 ≤
      riskBasedAmount pv atr price conv sl := by
  have hsl := slFracOf_pos atr price sl
  have hp := convictionParams_pos conv
  have hu : (0:ℚ) ≤ max 0 (cash - 200) := le_max_left _ _
  have hr : 0 ≤ pv * (convictionParams conv).1 / slFracOf atr price sl :=
    div_nonneg (mul_nonneg hpv (le_of_lt hp.1)) (le_of_lt hsl)
  have hc : 0 ≤ pv * (convictionParams conv).2 := mul_nonneg hpv (le_of_lt hp.2)
  unfold sizedAmountBinding riskBasedAmount
  dsimp only
  split_ifs <;> (try dsimp only at *) <;> linarith

/-- Claim C4: with valid inputs and cash_available=250 the returned amount is
at most 50 regardless of conviction (the cash cap is cash minus the $200
buffer); with cash_available=210 and a conviction whose risk-based amount is
positive and exceeds the $10 of usable cash, the result is amount 0 with
binding_constraint "below_minimum" and an explanatory reason field. -/
theorem C4_cash_buffer_floor (pv price atrv exp : ℚ) (conv : String)
    (sl : Option ℚ) (hpv : 0 < pv) (hprice : 0 < price) (hatr : 0 < atrv) :
    (∀ d, calculate_position_size pv 250 atrv price conv exp sl = .ok d →
      d.amount ≤ 50) ∧
    (10 < riskBasedAmount pv atrv price conv sl →
      ∀ d, calculate_position_size pv 210 atrv price conv exp sl = .ok d →
        d.amount = 0 ∧ d.binding_constraint = "below_minimum" ∧
          d.reason.isSome = true) := by
  have hv1 : ¬ (pv ≤ 0 ∨ price ≤ 0) := by push_neg; exact ⟨hpv, hprice⟩
  have hv2 : ¬ (atrv ≤ 0 ∧ sl = none) := by
    rintro ⟨h1, -⟩
    exact absurd hatr (not_lt.mpr h1)
  constructor
  · intro d hd
    have hle : (sizedAmountBinding pv 250 atrv price conv exp sl).1 ≤ 50 := by
      have h := sizedAmountBinding_le_usable pv 250 atrv price exp conv sl
      have : max (0:ℚ) (250 - 200) = 50 := by norm_num
      linarith [this ▸ h]
    unfold calculate_position_size at hd
    rw [if_neg hv1, if_neg hv2] at hd
    by_cases hfl : (sizedAmountBinding pv 250 atrv price conv exp sl).1 < 50
    · rw [if_pos hfl] at hd
      rcases Res.ok.inj hd with rfl
      norm_num
    · rw [if_neg hfl] at hd
      rcases Res.ok.inj hd with rfl
      show pyRound 2 (sizedAmountBinding pv 250 atrv price conv exp sl).1 ≤ 50
      have h50 := pyRound_le_int 2 (sizedAmountBinding pv 250 atrv price conv exp sl).1 50 (by exact_mod_cast hle)
      exact_mod_cast h50
  · intro _ d hd
    have hle : (sizedAmountBinding pv 210 atrv price conv exp sl).1 ≤ 10 := by
      have h := sizedAmountBinding_le_usable pv 210 atrv price exp conv sl
      have : max (0:ℚ) (210 - 200) = 10 := by norm_num
      linarith [this ▸ h]
    unfold calculate_position_size at hd
    rw [if_neg hv1, if_neg hv2, if_pos (by linarith : (sizedAmountBinding pv 210 atrv price conv exp sl).1 < 50)] at hd
    rcases Res.ok.inj hd with rfl
    refine ⟨rfl, rfl, rfl⟩

/-- Claim C10: whenever calculate_position_size succeeds with a positive
amount, the unrounded actual risk (pre-rounding amount × SL fraction) never
exceeds the risk budget portfolio_value × conviction risk percentage. -/
theorem C10_risk_within_budget (pv cash atrv price exp : ℚ) (conv : String)
    (sl : Option ℚ) (d : SizeDict)
    (hok : calculate_position_size pv cash atrv price conv exp sl = .ok d)
    (hpos : 0 < d.amount) :
    (sizedAmountBinding pv cash atrv price conv exp sl).1 * slFracOf atrv price sl ≤
      pv * (convictionParams conv).1 := by
  have hpv : 0 < pv := by
    by_contra hne
    push_neg at hne
    unfold calculate_position_size at hok
    rw [if_pos (Or.inl hne)] at hok
    exact Res.noConfusion hok
  have h1 := sizedAmountBinding_le_riskBased pv cash atrv price exp conv sl (le_of_lt hpv)
  have h2 := slFracOf_pos atrv price sl
  unfold riskBasedAmount at h1
  calc (sizedAmountBinding pv cash atrv price conv exp sl).1 * slFracOf atrv price sl
      ≤ (pv * (convictionParams conv).1 / slFracOf atrv price sl) * slFracOf atrv price sl :=
        mul_le_mul_of_nonneg_right h1 (le_of_lt h2)
    _ = pv * (convictionParams conv).1 := div_mul_cancel₀ _ (ne_of_gt h2)

/-- Claim C4 witness: the theorem applied at portfolio 10000, price 100,
atr 5, conviction "strong": with cash 250 the returned amount is 50 ≤ 50, and
with cash 210 the result is the below-minimum record. -/
theorem C4_cash_buffer_floor_witness :
    c4CashDict.amount ≤ 50 ∧ c4MinDict.amount = 0 ∧
      c4MinDict.binding_constraint = "below_minimum" ∧
      c4MinDict.reason.isSome = true := by
  have hn : normalizeConviction "strong" = "strong" := by decide
  have h := C4_cash_buffer_floor 10000 100 5 0 "strong" none
    (by norm_num) (by norm_num) (by norm_num)
  have e1 : calculate_position_size 10000 250 5 100 "strong" 0 none = .ok c4CashDict := by
    norm_num [calculate_position_size, sizedAmountBinding, slFracOf,
      convictionParams_strong, hn, pyRound, pyRoundInt, c4CashDict]
  have e2 : calculate_position_size 10000 210 5 100 "strong" 0 none = .ok c4MinDict := by
    norm_num [calculate_position_size, sizedAmountBinding, slFracOf,
      convictionParams_strong, hn, pyRound, pyRoundInt, c4MinDict]
  have h2 := h.2 (by norm_num [riskBasedAmount, slFracOf, convictionParams_strong])
    c4MinDict e2
  exact ⟨h.1 c4CashDict e1, h2⟩

/-- Claim C10 witness: the theorem applied at the concrete success
calculate_position_size(10000, 5000, 5, 100, "moderate") with amount 500 > 0:
the unrounded risk 500 × 0.1 stays within the budget 10000 × 0.015. -/
theorem C10_risk_within_budget_witness :
    (sizedAmountBinding 10000 5000 5 100 "moderate" 0 none).1 * slFracOf 5 100 none ≤
      10000 * (convictionParams "moderate").1 := by
  have hn : normalizeConviction "moderate" = "moderate" := by decide
  have e : calculate_position_size 10000 5000 5 100 "moderate" 0 none = .ok c10ConcDict := by
    norm_num [calculate_position_size, sizedAmountBinding, slFracOf,
      convictionParams_moderate, hn, pyRound, pyRoundInt, c10ConcDict]
  exact C10_risk_within_budget 10000 5000 5 100 0 "moderate" none c10ConcDict e
    (by norm_num [c10ConcDict])

/-- Claim C6: when the portfolio fetch raises, check_trade returns early with
exactly the amount-minimum, amount-maximum and leverage checks applied, the
fetch warning as the only warning, and no violation caused by the failure; in
the early return as in the normal return, passed holds iff the violations
list is empty. -/
theorem C6_fetch_failure_early_return (symbol : String) (amount : ℚ)
    (direction : String) (leverage : ℚ) (limits : RiskLimits)
    (pf : Res PortfolioSummary) (dp : Res ℚ) :
    (∀ e, pf = .err e →
      check_trade symbol amount direction leverage limits pf dp =
        { passed :=
            ((if amount < limits.min_trade_usd then [msgBelowMin] else []) ++
             (if limits.max_single_trade_usd < amount then [msgAboveMax] else []) ++
             (if limits.max_leverage < leverage then [msgLeverage] else [])).isEmpty
          violations :=
            (if amount < limits.min_trade_usd then [msgBelowMin] else []) ++
            (if limits.max_single_trade_usd < amount then [msgAboveMax] else []) ++
            (if limits.max_leverage < leverage then [msgLeverage] else [])
          warnings := [msgFetchFail] }) ∧
    ((check_trade symbol amount direction leverage limits pf dp).passed = true ↔
      (check_trade symbol amount direction leverage limits pf dp).violations = []) := by
  constructor
  · rintro e rfl
    rfl
  · rcases pf with e | p
    · simp [check_trade, List.isEmpty_iff]
    · simp only [check_trade]
      rcases dp with e2 | pnl <;> simp [List.isEmpty_iff]

/-- Claim C6 witness: a concrete early return on a failed fetch, with no
violations at the defaults, and passed agreeing with emptiness. -/
theorem C6_fetch_failure_early_return_witness :
    check_trade "AAPL" 500 "BUY" 1 defaultRiskLimits (.err "timeout") (.ok 0) =
      { passed := true, violations := [], warnings := [msgFetchFail] } ∧
    ((check_trade "AAPL" 500 "BUY" 1 defaultRiskLimits (.err "timeout") (.ok 0)).passed = true ↔
      (check_trade "AAPL" 500 "BUY" 1 defaultRiskLimits (.err "timeout") (.ok 0)).violations = []) := by
  have h := C6_fetch_failure_early_return "AAPL" 500 "BUY" 1 defaultRiskLimits
    (.err "timeout") (.ok 0)
  refine ⟨?_, h.2⟩
  rw [h.1 "timeout" rfl]
  norm_num [defaultRiskLimits]

/-- Membership in a conditional singleton message list. -/
theorem mem_if_singleton {c : Prop} [Decidable c] (x a : String) :
    x ∈ (if c then [a] else []) ↔ c ∧ x = a := by
  split_ifs with h <;> simp [h]

/-- Claim C7: with a fetched portfolio of positive total value, the new
exposure (total_invested+amount)/total_value yields the exposure violation
exactly when it exceeds the configured max_total_exposure_pct and,
independently, the high-exposure warning exactly when it exceeds the
hardcoded 80% — so a call can produce both, either alone, or neither. -/
theorem C7_exposure_violation_and_warning (symbol direction : String)
    (amount leverage : ℚ) (limits : RiskLimits) (p : PortfolioSummary)
    (dp : Res ℚ) (htv : 0 < p.total_value) :
    (msgExposure ∈ (check_trade symbol amount direction leverage limits (.ok p) dp).violations ↔
      limits.max_total_exposure_pct < (p.total_invested + amount) / p.total_value) ∧
    (msgHighExposure ∈ (check_trade symbol amount direction leverage limits (.ok p) dp).warnings ↔
      80/100 < (p.total_invested + amount) / p.total_value) := by
  have d1 : msgExposure ≠ msgBelowMin := by decide
  have d2 : msgExposure ≠ msgAboveMax := by decide
  have d3 : msgExposure ≠ msgLeverage := by decide
  have d4 : msgExposure ≠ msgMaxPositions := by decide
  have d5 : msgExposure ≠ msgConcentration := by decide
  have d6 : msgExposure ≠ msgDailyLoss := by decide
  have d7 : msgHighExposure ≠ msgLeverageFee := by decide
  have d8 : msgHighExposure ≠ msgShortFee := by decide
  rcases dp with e | pnl <;>
    simp [check_trade, mem_if_singleton, htv, d1, d2, d3, d4, d5, d6, d7, d8]

/-- Claim C7 witness: a $500 trade on a 10000-value portfolio with 8500
invested takes the new exposure to 90%: above the 80% warning threshold but
not above the default 90% cap, giving the warning without the violation. -/
theorem C7_exposure_violation_and_warning_witness :
    msgHighExposure ∈ (check_trade "AAPL" 500 "BUY" 1 defaultRiskLimits
      (.ok c7Portfolio) (.ok 0)).warnings ∧
    msgExposure ∉ (check_trade "AAPL" 500 "BUY" 1 defaultRiskLimits
      (.ok c7Portfolio) (.ok 0)).violations := by
  have h := C7_exposure_violation_and_warning "AAPL" "BUY" 500 1 defaultRiskLimits
    c7Portfolio (.ok 0) (by norm_num [PortfolioSummary.total_value, c7Portfolio])
  constructor
  · exact h.2.mpr (by norm_num [c7Portfolio, PortfolioSummary.total_value])
  · intro hm
    have hlt := h.1.mp hm
    norm_num [c7Portfolio, defaultRiskLimits, PortfolioSummary.total_value] at hlt

/-- Claim C5: when both index analyses fail the bias is UNKNOWN and no scoring
occurs; when at least one succeeds, the bias is determined exactly by the
five-boolean bull score of bullScoreSpec — RISK_ON iff score ≥ 4, CAUTIOUS iff
2 ≤ score < 4, RISK_OFF iff score < 2. -/
theorem C5_regime_bias (spy qqq : Res IndexAnalysis) (vix_val : Option ℚ) :
    ((∀ a, spy ≠ .ok a) → (∀ a, qqq ≠ .ok a) →
      (analyze_market_regime spy qqq vix_val).bias = "UNKNOWN") ∧
    ((∃ a, spy = .ok a ∨ qqq = .ok a) →
      (analyze_market_regime spy qqq vix_val).bias =
        (if 4 ≤ bullScoreSpec spy qqq vix_val then "RISK_ON"
         else if 2 ≤ bullScoreSpec spy qqq vix_val then "CAUTIOUS"
         else "RISK_OFF")) := by
  constructor
  · intro hs hq
    rcases spy with e1 | a1
    · rcases qqq with e2 | a2
      · rcases vix_val with _ | v <;> simp [analyze_market_regime]
      · exact absurd rfl (hq a2)
    · exact absurd rfl (hs a1)
  · rintro ⟨a, ha⟩
    rcases spy with e1 | a1 <;> rcases qqq with e2 | a2 <;>
      rcases vix_val with _ | v <;>
        simp_all [analyze_market_regime, bullScoreSpec, regimeView] <;>
          (try (split_ifs <;> rfl))

/-- Claim C5 witness: both indices failing yields bias UNKNOWN; a bullish SPY
above both SMAs with VIX 20 and a failed QQQ scores 4 of 5, yielding RISK_ON. -/
theorem C5_regime_bias_witness :
    (analyze_market_regime (.err "SPY down") (.err "QQQ down") (some 20)).bias = "UNKNOWN" ∧
    (analyze_market_regime (.ok c5Spy) (.err "QQQ down") (some 20)).bias = "RISK_ON" := by
  have h1 := (C5_regime_bias (.err "SPY down") (.err "QQQ down") (some 20)).1
    (fun a h => Res.noConfusion h) (fun a h => Res.noConfusion h)
  have h2 := (C5_regime_bias (.ok c5Spy) (.err "QQQ down") (some 20)).2
    ⟨c5Spy, Or.inl rfl⟩
  have hs : bullScoreSpec (.ok c5Spy) (.err "QQQ down") (some 20) = 4 := by
    have hb : ("BULLISH" == "BULLISH") = true := by decide
    have hd1 : decide ((490:ℚ) < 500) = true := by
      simp only [decide_eq_true_eq]
      norm_num
    have hd2 : decide ((480:ℚ) < 500) = true := by
      simp only [decide_eq_true_eq]
      norm_num
    have hd3 : decide (pyRound 2 20 < (25:ℚ)) = true := by
      simp only [decide_eq_true_eq]
      norm_num [pyRound, pyRoundInt]
    simp [bullScoreSpec, c5Spy, hb, hd1, hd2, hd3]
  rw [hs] at h2
  refine ⟨h1, ?_⟩
  rw [h2]
  norm_num

/-- insertAsc inserts exactly one occurrence. -/
theorem mem_insertAsc (x y : ℚ) (l : List ℚ) :
    x ∈ insertAsc y l ↔ x = y ∨ x ∈ l := by
  induction l with
  | nil => simp [insertAsc]
  | cons a as ih =>
    by_cases h : y ≤ a
    · simp [insertAsc, h]
    · simp [insertAsc, h, ih]
      tauto

/-- sortAsc is a permutation membership-wise. -/
theorem mem_sortAsc (x : ℚ) (l : List ℚ) : x ∈ sortAsc l ↔ x ∈ l := by
  induction l with
  | nil => simp [sortAsc]
  | cons a as ih => simp [sortAsc, mem_insertAsc, ih]

/-- dedupeGo only drops elements. -/
theorem mem_dedupeGo (tol lastKept x : ℚ) (l : List ℚ)
    (h : x ∈ dedupeGo tol lastKept l) : x ∈ l := by
  induction l generalizing lastKept with
  | nil => simpa [dedupeGo] using h
  | cons a as ih =>
    by_cases hc : tol < |a - lastKept| / lastKept
    · rw [dedupeGo, if_pos hc] at h
      rcases List.mem_cons.mp h with h1 | h1
      · exact List.mem_cons.mpr (Or.inl h1)
      · exact List.mem_cons.mpr (Or.inr (ih a h1))
    · rw [dedupeGo, if_neg hc] at h
      exact List.mem_cons.mpr (Or.inr (ih lastKept h))

/-- Every level reported by _dedupe_levels comes from its input. -/
theorem mem_dedupe_levels (tol x : ℚ) (l : List ℚ)
    (h : x ∈ dedupe_levels tol l) : x ∈ l := by
  unfold dedupe_levels at h
  rcases hs : sortAsc l with _ | ⟨a, as⟩
  · rw [hs] at h
    simp at h
  · rw [hs] at h
    rcases List.mem_cons.mp h with h1 | h1
    · exact (mem_sortAsc x l).mp (hs ▸ List.mem_cons.mpr (Or.inl h1))
    · exact (mem_sortAsc x l).mp (hs ▸ List.mem_cons.mpr (Or.inr (mem_dedupeGo _ _ _ _ h1)))

/-- insertAsc grows the length by one. -/
theorem length_insertAsc (y : ℚ) (l : List ℚ) :
    (insertAsc y l).length = l.length + 1 := by
  induction l with
  | nil => rfl
  | cons a as ih =>
    by_cases h : y ≤ a
    · simp [insertAsc, h]
    · simp [insertAsc, h, ih]

/-- sortAsc preserves length. -/
theorem length_sortAsc (l : List ℚ) : (sortAsc l).length = l.length := by
  induction l with
  | nil => rfl
  | cons a as ih => simp [sortAsc, length_insertAsc, ih]

/-- dedupeGo never grows the list. -/
theorem length_dedupeGo (tol lastKept : ℚ) (l : List ℚ) :
    (dedupeGo tol lastKept l).length ≤ l.length := by
  induction l generalizing lastKept with
  | nil => simp [dedupeGo]
  | cons a as ih =>
    by_cases hc : tol < |a - lastKept| / lastKept
    · rw [dedupeGo, if_pos hc]
      simpa using ih a
    · rw [dedupeGo, if_neg hc]
      exact le_trans (ih lastKept) (by simp)

/-- _dedupe_levels never grows the list. -/
theorem length_dedupe_levels (tol : ℚ) (l : List ℚ) :
    (dedupe_levels tol l).length ≤ l.length := by
  unfold dedupe_levels
  rcases hs : sortAsc l with _ | ⟨a, as⟩
  · simp
  · have h1 : l.length = as.length + 1 := by
      rw [← length_sortAsc l, hs]
      rfl
    simp only [List.length_cons, h1]
    exact Nat.add_le_add_right (length_dedupeGo tol a as) 1

/-- The left fold of max is an upper bound attained by the seed or the list. -/
theorem foldl_max_spec (xs : List ℚ) (a : ℚ) :
    (xs.foldl max a = a ∨ xs.foldl max a ∈ xs) ∧
    a ≤ xs.foldl max a ∧ ∀ z ∈ xs, z ≤ xs.foldl max a := by
  induction xs generalizing a with
  | nil => exact ⟨Or.inl rfl, le_refl a, by simp⟩
  | cons x xs ih =>
    have h := ih (max a x)
    refine ⟨?_, ?_, ?_⟩
    · rcases h.1 with h1 | h1
      · rcases max_choice a x with h2 | h2
        · exact Or.inl (by rw [List.foldl_cons, h1, h2])
        · exact Or.inr (by rw [List.foldl_cons, h1, h2]; exact List.mem_cons_self x xs)
      · exact Or.inr (List.mem_cons.mpr (Or.inr h1))
    · exact le_trans (le_max_left a x) h.2.1
    · intro z hz
      rcases List.mem_cons.mp hz with h1 | h1
      · rw [h1, List.foldl_cons]
        exact le_trans (le_max_right a x) h.2.1
      · exact h.2.2 z h1

/-- The left fold of min is a lower bound attained by the seed or the list. -/
theorem foldl_min_spec (xs : List ℚ) (a : ℚ) :
    (xs.foldl min a = a ∨ xs.foldl min a ∈ xs) ∧
    xs.foldl min a ≤ a ∧ ∀ z ∈ xs, xs.foldl min a ≤ z := by
  induction xs generalizing a with
  | nil => exact ⟨Or.inl rfl, le_refl a, by simp⟩
  | cons x xs ih =>
    have h := ih (min a x)
    refine ⟨?_, ?_, ?_⟩
    · rcases h.1 with h1 | h1
      · rcases min_choice a x with h2 | h2
        · exact Or.inl (by rw [List.foldl_cons, h1, h2])
        · exact Or.inr (by rw [List.foldl_cons, h1, h2]; exact List.mem_cons_self x xs)
      · exact Or.inr (List.mem_cons.mpr (Or.inr h1))
    · exact le_trans h.2.1 (min_le_left a x)
    · intro z hz
      rcases List.mem_cons.mp hz with h1 | h1
      · rw [h1, List.foldl_cons]
        exact le_trans h.2.1 (min_le_right a x)
      · exact h.2.2 z h1

/-- Python max() of a nonempty list: a member and an upper bound. -/
theorem maxQ?_spec (l : List ℚ) (y : ℚ) (h : maxQ? l = some y) :
    y ∈ l ∧ ∀ z ∈ l, z ≤ y := by
  rcases l with _ | ⟨x, xs⟩
  · exact Option.noConfusion h
  · have hy : xs.foldl max x = y := Option.some.inj h
    have hs := foldl_max_spec xs x
    constructor
    · rcases hs.1 with h1 | h1
      · rw [← hy, h1]
        exact List.mem_cons_self x xs
      · rw [← hy]
        exact List.mem_cons.mpr (Or.inr h1)
    · intro z hz
      rcases List.mem_cons.mp hz with h1 | h1
      · rw [← hy, h1]
        exact hs.2.1
      · exact hy ▸ hs.2.2 z h1

/-- Python min() of a nonempty list: a member and a lower bound. -/
theorem minQ?_spec (l : List ℚ) (y : ℚ) (h : minQ? l = some y) :
    y ∈ l ∧ ∀ z ∈ l, y ≤ z := by
  rcases l with _ | ⟨x, xs⟩
  · exact Option.noConfusion h
  · have hy : xs.foldl min x = y := Option.some.inj h
    have hs := foldl_min_spec xs x
    constructor
    · rcases hs.1 with h1 | h1
      · rw [← hy, h1]
        exact List.mem_cons_self x xs
      · rw [← hy]
        exact List.mem_cons.mpr (Or.inr h1)
    · intro z hz
      rcases List.mem_cons.mp hz with h1 | h1
      · rw [← hy, h1]
        exact hs.2.1
      · exact hy ▸ hs.2.2 z h1

/-- maxBelow returns the greatest element strictly below the close. -/
theorem maxBelow_spec (c y : ℚ) (xs : List ℚ) (h : maxBelow c xs = some y) :
    y ∈ xs ∧ y < c ∧ ∀ z ∈ xs, z < c → z ≤ y := by
  have hs := maxQ?_spec _ y h
  have h1 := List.mem_filter.mp hs.1
  refine ⟨h1.1, by simpa using h1.2, ?_⟩
  intro z hz hzc
  exact hs.2 z (List.mem_filter.mpr ⟨hz, by simpa using hzc⟩)

/-- minAbove returns the least element strictly above the close. -/
theorem minAbove_spec (c y : ℚ) (xs : List ℚ) (h : minAbove c xs = some y) :
    y ∈ xs ∧ c < y ∧ ∀ z ∈ xs, c < z → y ≤ z := by
  have hs := minQ?_spec _ y h
  have h1 := List.mem_filter.mp hs.1
  refine ⟨h1.1, by simpa using h1.2, ?_⟩
  intro z hz hzc
  exact hs.2 z (List.mem_filter.mpr ⟨hz, by simpa using hzc⟩)

/-- When no element qualifies, maxBelow is none. -/
theorem maxBelow_none (c : ℚ) (xs : List ℚ) (h : ∀ y ∈ xs, ¬ y < c) :
    maxBelow c xs = none := by
  unfold maxBelow
  have : xs.filter (fun s => decide (s < c)) = [] := by
    rw [List.filter_eq_nil]
    intro a ha
    simpa using h a ha
  rw [this]
  rfl

/-- When no element qualifies, minAbove is none. -/
theorem minAbove_none (c : ℚ) (xs : List ℚ) (h : ∀ y ∈ xs, ¬ c < y) :
    minAbove c xs = none := by
  unfold minAbove
  have : xs.filter (fun r => decide (c < r)) = [] := by
    rw [List.filter_eq_nil]
    intro a ha
    simpa using h a ha
  rw [this]
  rfl

/-- Two levels within tolerance of each other merge to the LOWER one. -/
theorem dedupe_levels_pair (tol a b : ℚ) (ha : 0 < a) (hab : a ≤ b)
    (hclose : |b - a| / a ≤ tol) : dedupe_levels tol [a, b] = [a] := by
  have hsort : sortAsc [a, b] = [a, b] := by
    simp [sortAsc, insertAsc, hab]
  have hc : ¬ tol < |b - a| / a := not_lt.mpr hclose
  unfold dedupe_levels
  rw [hsort]
  simp [dedupeGo, hc]

/-- Claim C8, amended: support_resistance computes centered rolling extremes,
takes the top-5 distinct highs and bottom-5 distinct lows, merges levels
within 2% keeping the LOWEST level of each merged pair (the more extreme one
for supports but the less extreme one for resistances), and reports the
nearest support strictly below / nearest resistance strictly above the last
close, None when no level qualifies. -/
theorem C8_support_resistance_levels (bars : List Bar) (w : ℕ) (r : SRLevels)
    (h : support_resistance bars w = some r) :
    (∀ tol a b : ℚ, 0 < a → a ≤ b → |b - a| / a ≤ tol →
      dedupe_levels tol [a, b] = [a]) ∧
    (∀ x ∈ r.resistance_levels, ∃ y ∈ lastN 5 (sortedUnique
      ((rollMaxCentered w (bars.map Bar.high)).filterMap id)), x = pyRound 4 y) ∧
    (∀ x ∈ r.support_levels, ∃ y ∈ (sortedUnique
      ((rollMinCentered w (bars.map Bar.low)).filterMap id)).take 5, x = pyRound 4 y) ∧
    r.resistance_levels.length ≤ 5 ∧ r.support_levels.length ≤ 5 ∧
    (∀ x, r.nearest_resistance = some x → ∃ y ∈ resistanceLevelsRaw bars w,
      closeAt bars (bars.length - 1) < y ∧
      (∀ z ∈ resistanceLevelsRaw bars w, closeAt bars (bars.length - 1) < z → y ≤ z) ∧
      x = pyRound 4 y) ∧
    (∀ x, r.nearest_support = some x → ∃ y ∈ supportLevelsRaw bars w,
      y < closeAt bars (bars.length - 1) ∧
      (∀ z ∈ supportLevelsRaw bars w, z < closeAt bars (bars.length - 1) → z ≤ y) ∧
      x = pyRound 4 y) ∧
    ((∀ y ∈ resistanceLevelsRaw bars w, ¬ closeAt bars (bars.length - 1) < y) →
      r.nearest_resistance = none) ∧
    ((∀ y ∈ supportLevelsRaw bars w, ¬ y < closeAt bars (bars.length - 1)) →
      r.nearest_support = none) := by
  unfold support_resistance at h
  by_cases he : bars.isEmpty
  · rw [if_pos he] at h
    exact Option.noConfusion h
  rw [if_neg he] at h
  have hr := Option.some.inj h
  subst hr
  dsimp only
  refine ⟨dedupe_levels_pair, ?_, ?_, ?_, ?_, ?_, ?_, ?_, ?_⟩
  · intro x hx
    rcases List.mem_map.mp hx with ⟨y, hy, hxy⟩
    exact ⟨y, mem_dedupe_levels _ _ _ hy, hxy.symm⟩
  · intro x hx
    rcases List.mem_map.mp hx with ⟨y, hy, hxy⟩
    exact ⟨y, mem_dedupe_levels _ _ _ hy, hxy.symm⟩
  · rw [List.length_map]
    refine le_trans (length_dedupe_levels _ _) ?_
    unfold lastN
    rw [List.length_drop]
    omega
  · rw [List.length_map]
    refine le_trans (length_dedupe_levels _ _) ?_
    rw [List.length_take]
    omega
  · intro x hx
    rcases hm : minAbove (closeAt bars (bars.length - 1)) (resistanceLevelsRaw bars w)
      with _ | y
    · simp only [hm] at hx
      exact Option.noConfusion hx
    · simp only [hm] at hx
      by_cases hy0 : y = 0
      · rw [if_pos hy0] at hx
        exact Option.noConfusion hx
      · rw [if_neg hy0] at hx
        have hs := minAbove_spec _ y _ hm
        exact ⟨y, hs.1, hs.2.1, hs.2.2, (Option.some.inj hx).symm⟩
  · intro x hx
    rcases hm : maxBelow (closeAt bars (bars.length - 1)) (supportLevelsRaw bars w)
      with _ | y
    · simp only [hm] at hx
      exact Option.noConfusion hx
    · simp only [hm] at hx
      by_cases hy0 : y = 0
      · rw [if_pos hy0] at hx
        exact Option.noConfusion hx
      · rw [if_neg hy0] at hx
        have hs := maxBelow_spec _ y _ hm
        exact ⟨y, hs.1, hs.2.1, hs.2.2, (Option.some.inj hx).symm⟩
  · intro hq
    simp only [minAbove_none _ _ hq]
  · intro hq
    simp only [maxBelow_none _ _ hq]

/-- Claim C8, counterexample: on srBars with window 2 the top-5 distinct
resistance levels are 100 and 101, which lie within 2% of each other; the
merge keeps the LOWER level 100 and drops the more extreme 101, so the
reported resistance levels are [100] — contradicting the claim that merging
keeps the higher of two close resistance levels. -/
theorem C8_support_resistance_counterexample :
    lastN 5 (sortedUnique ((rollMaxCentered 2 (srBars.map Bar.high)).filterMap id))
      = [100, 101] ∧
    |(101:ℚ) - 100| / 100 ≤ 2/100 ∧
    support_resistance srBars 2 = some
      { support_levels := [10, 11, 12], resistance_levels := [100],
        nearest_support := some 12, nearest_resistance := some 100 } := by
  have hr : List.range 4 = [0, 1, 2, 3] := rfl
  have hm : srBars.map Bar.high = [100, 100, 101, 101] := rfl
  have hl : srBars.map Bar.low = [10, 11, 12, 13] := rfl
  refine ⟨?_, by norm_num, ?_⟩
  · norm_num [lastN, sortedUnique, sortAsc, insertAsc, dedupAdj, rollMaxCentered,
      maxQ?, hm, hr, srBars, List.filterMap]
  · norm_num [support_resistance, resistanceLevelsRaw, supportLevelsRaw, lastN,
      sortedUnique, sortAsc, insertAsc, dedupAdj, rollMaxCentered, rollMinCentered,
      maxQ?, minQ?, maxBelow, minAbove, dedupe_levels, dedupeGo, closeAt,
      hm, hl, hr, srBars, List.filterMap, List.filter, pyRound, pyRoundInt]

/-- Claim C8 witness: the amended theorem applied at srBars with window 2 —
the in-tolerance pair (100, 101) merges to the lower level 100, and at most
five resistance levels are reported. -/
theorem C8_support_resistance_levels_witness :
    dedupe_levels (2/100) [(100:ℚ), 101] = [100] ∧
    ({ support_levels := [10, 11, 12], resistance_levels := [100],
       nearest_support := some 12,
       nearest_resistance := some 100 } : SRLevels).resistance_levels.length ≤ 5 := by
  have hr : List.range 4 = [0, 1, 2, 3] := rfl
  have hm : srBars.map Bar.high = [100, 100, 101, 101] := rfl
  have hl : srBars.map Bar.low = [10, 11, 12, 13] := rfl
  have he : support_resistance srBars 2 = some
      { support_levels := [10, 11, 12], resistance_levels := [100],
        nearest_support := some 12, nearest_resistance := some 100 } := by
    norm_num [support_resistance, resistanceLevelsRaw, supportLevelsRaw, lastN,
      sortedUnique, sortAsc, insertAsc, dedupAdj, rollMaxCentered, rollMinCentered,
      maxQ?, minQ?, maxBelow, minAbove, dedupe_levels, dedupeGo, closeAt,
      hm, hl, hr, srBars, List.filterMap, List.filter, pyRound, pyRoundInt]
  have h := C8_support_resistance_levels srBars 2 _ he
  exact ⟨h.1 (2/100) 100 101 (by norm_num) (by norm_num) (by norm_num), h.2.2.2.1⟩
